import Mathlib

/-!
Shallow embedding of the client-side job-submission and polling workflow of
the Manhwa-ai frontend.

Sources embedded:
- src/frontend/src/pages/Home.jsx : file validation (validateFile, handleFile),
  the two-phase submission (handleCreateVideo), and the polling effect
  (useEffect keyed on jobId).
- src/frontend/src/api/api.js : API_URL, parseJSONResponse, fetchWithRetry.

JavaScript runtime features that matter here are modelled explicitly:
- a fetch call either resolves with a Response or rejects with an error
  (Except JSError JSResponse);
- a Response body is a one-shot stream: json() and text() consume it, and a
  second read rejects with a TypeError;
- the JS truthiness of strings ("" is falsy) and of undefined is modelled by
  Option String with explicit defaulting helpers.

Network activity is made observable: the functions that perform fetch calls
also return the list of requests they issued, so ordering and absence of
requests are provable.
-/

/-- A JavaScript exception value, as relevant here: a plain Error, a
TypeError (thrown by fetch on network failure and by a second body read), or
a SyntaxError (thrown by JSON parsing). -/
inductive JSError where
  | err (msg : String)
  | typeError (msg : String)
  | syntaxError (msg : String)
deriving DecidableEq, Repr

/-- The err.message property of a JS exception. -/
def JSError.message : JSError → String
  | .err m => m
  | .typeError m => m
  | .syntaxError m => m

/-- JS String(err): the name of the error, plus the message when nonempty. -/
def JSError.toStr : JSError → String
  | .err m => if m = "" then "Error" else "Error: " ++ m
  | .typeError m => if m = "" then "TypeError" else "TypeError: " ++ m
  | .syntaxError m => if m = "" then "SyntaxError" else "SyntaxError: " ++ m

/-- The string a catch handler written as (err.message || String(err))
produces from a caught exception. -/
def catchMsg (e : JSError) : String :=
  if e.message = "" then e.toStr else e.message

/-- JS (a || b) on an optional string a: b when a is undefined or empty
(falsy), a otherwise. -/
def jsOr (o : Option String) (d : String) : String :=
  match o with
  | some s => if s = "" then d else s
  | none => d

/-- JS (x || null) on an optional string: null when x is undefined or the
empty string. Used for setJobId(videoData.job_id || null) and for the
truthiness test if (!jobId) in the polling effect. -/
def jsNullable (o : Option String) : Option String :=
  match o with
  | some s => if s = "" then none else some s
  | none => none

/-- Does the character list pat occur at the head of s? -/
def startsWithL : List Char → List Char → Bool
  | _, [] => true
  | [], _ :: _ => false
  | c :: cs, p :: ps => c = p && startsWithL cs ps

/-- Does the character list pat occur somewhere inside s? -/
def occursIn : List Char → List Char → Bool
  | [], pat => pat.isEmpty
  | c :: cs, pat => startsWithL (c :: cs) pat || occursIn cs pat

/-- JS s.includes(pat) for strings: pat occurs as a contiguous substring of
s (case-sensitive). -/
def strIncludes (s pat : String) : Bool :=
  occursIn s.toList pat.toList

/-- Replace the first occurrence of pat in s by repl, on character lists.
JS String.prototype.replace with a string pattern replaces only the first
occurrence. -/
def replaceFirstL : List Char → List Char → List Char → List Char
  | [], _, _ => []
  | c :: cs, pat, repl =>
    if startsWithL (c :: cs) pat then repl ++ (c :: cs).drop pat.length
    else c :: replaceFirstL cs pat repl

/-- JS s.replace(pat, repl) with a string pattern: first occurrence only. -/
def replaceFirst (s pat repl : String) : String :=
  String.mk (replaceFirstL s.toList pat.toList repl.toList)

/-- The structured JSON fields the client reads from backend responses.
A field that the response does not carry is none (JS undefined). -/
structure BodyData where
  detail : Option String := none
  message : Option String := none
  status : Option String := none
  video_url : Option String := none
  preview_url : Option String := none
  job_id : Option String := none
  image_urls : Option (List String) := none
  panel_images : Option (List String) := none
deriving DecidableEq, Repr

/-- A fetch Response: ok flag (2xx), HTTP status code, raw body text, the
result of parsing the body as JSON (none when the body is not valid JSON),
and whether the one-shot body stream has already been consumed. -/
structure JSResponse where
  ok : Bool
  status : Nat
  body : String
  jsonData : Option BodyData
  bodyUsed : Bool
deriving DecidableEq, Repr

/-- response.json(): rejects with a TypeError when the body stream was
already read; otherwise consumes the body and either returns the parsed
JSON or rejects with a SyntaxError. Returns the updated response. -/
def respJson (r : JSResponse) : Except JSError BodyData × JSResponse :=
  if r.bodyUsed then
    (.error (.typeError "Failed to execute json on Response: body stream already read"), r)
  else
    let r' := { r with bodyUsed := true }
    match r.jsonData with
    | some b => (.ok b, r')
    | none => (.error (.syntaxError "Unexpected token in JSON"), r')

/-- response.text(): rejects with a TypeError when the body stream was
already read; otherwise consumes the body and returns the raw text. -/
def respText (r : JSResponse) : Except JSError String × JSResponse :=
  if r.bodyUsed then
    (.error (.typeError "Failed to execute text on Response: body stream already read"), r)
  else
    (.ok r.body, { r with bodyUsed := true })

/-- The outcome of one fetch call: a resolved Response, or a rejection with
a thrown error (network-level transport failure). -/
abbrev FetchOutcome := Except JSError JSResponse

/-- api.js parseJSONResponse: try response.json(); on failure, read
response.text() and throw a descriptive Error carrying the status code and
the raw body. Faithful to the source, including the second body read inside
the catch block. -/
def parseJSONResponse (r : JSResponse) : Except JSError BodyData × JSResponse :=
  match respJson r with
  | (.ok b, r') => (.ok b, r')
  | (.error _, r') =>
    match respText r' with
    | (.ok t, r'') =>
      (.error (.err ("Backend returned non-JSON response (" ++ toString r.status ++ "):\n" ++ t)), r'')
    | (.error e, r'') => (.error e, r'')

/-- api.js fetchWithRetry: attempt fetch; when it rejects and retries remain,
recurse with retries - 1, otherwise propagate the rejection. A resolved
response, whatever its status, is returned without retrying. The oracle
gives the outcome of the n-th fetch attempt; the result is paired with the
index one past the last attempt made (the attempt count when started at 0). -/
def fetchWithRetry (oracle : Nat → FetchOutcome) : Nat → Nat → FetchOutcome × Nat
  | attempt, 0 =>
    match oracle attempt with
    | .ok r => (.ok r, attempt + 1)
    | .error e => (.error e, attempt + 1)
  | attempt, retries + 1 =>
    match oracle attempt with
    | .ok r => (.ok r, attempt + 1)
    | .error _ => fetchWithRetry oracle (attempt + 1) retries

/-- api.js API_URL: the environment-provided base URL, falling back to the
local default host when the variable is absent or empty (JS ||). -/
def API_URL (env : Option String) : String :=
  jsOr env "http://localhost:8000"

/-- Home.jsx API_BASE_URL: the environment-provided base URL, read with no
fallback. -/
def API_BASE_URL (env : Option String) : Option String :=
  env

/-- JS template-literal interpolation of a possibly-undefined string value:
undefined prints as the literal text undefined. -/
def jsInterp : Option String → String
  | some s => s
  | none => "undefined"

/-- The URL Home.jsx fetches in phase 1 of the submission. -/
def homeAudioStoryUrl (env : Option String) : String :=
  jsInterp (API_BASE_URL env) ++ "/api/v1/generate_audio_story"

/-- The URL Home.jsx fetches in phase 2 of the submission. -/
def homeGenerateVideoUrl (env : Option String) : String :=
  jsInterp (API_BASE_URL env) ++ "/api/v1/generate_video"

/-- The URL Home.jsx fetches on each poll tick. -/
def homeVideoStatusUrl (env : Option String) (jobId : String) : String :=
  jsInterp (API_BASE_URL env) ++ "/api/v1/video_status/" ++ jobId

/-- The user-selected file: display name, declared media type, byte size. -/
structure FileData where
  name : String
  type : String
  size : Nat
deriving DecidableEq, Repr

/-- The React state hooks of the Home component that the embedded logic
reads or writes. -/
structure HomeState where
  file : Option FileData
  mangaName : String
  previewUrl : Option String
  videoUrl : Option String
  isGenerating : Bool
  showPreview : Bool
  progress : Nat
  error : Option String
  jobId : Option String
  panelImages : List String
deriving DecidableEq, Repr

/-- One observable network request issued by the Home component. -/
inductive Request where
  | audioStory
  | genVideo
  | videoStatus (jobId : String)
deriving DecidableEq, Repr

/-- Home.jsx validateFile: reject (returning false) unless the declared
media type contains pdf and the size is at most 50 * 1024 * 1024 bytes;
rejection sets the error message, acceptance clears it. Returns the
boolean result together with the updated state. -/
def validateFile (s : HomeState) (fileToValidate : Option FileData) :
    Bool × HomeState :=
  match fileToValidate with
  | none => (false, s)
  | some f =>
    if strIncludes f.type "pdf" = false then
      (false, { s with error := some "Please upload a PDF file" })
    else if f.size > 50 * 1024 * 1024 then
      (false, { s with error := some "PDF must be < 50MB" })
    else
      (true, { s with error := none })

/-- Home.jsx handleFile: when validation succeeds, store the file and reset
the derived state; when it fails, leave everything as validateFile left it.
No fetch occurs here, so the issued-request list is always empty. -/
def handleFile (s : HomeState) (selectedFile : Option FileData) :
    HomeState × List Request :=
  let v := validateFile s selectedFile
  match v.1, selectedFile with
  | true, some f =>
    ({ v.2 with
        file := some f
        previewUrl := none
        videoUrl := none
        showPreview := false
        mangaName := replaceFirst f.name ".pdf" ""
        panelImages := []
        progress := 0
        jobId := none
        error := none }, [])
  | _, _ => (v.2, [])

/-- The outer catch handler of handleCreateVideo: surface the message of the
caught error, stop the generating flag, reset progress. -/
def submitCatch (s : HomeState) (e : JSError) : HomeState :=
  { s with error := some (catchMsg e), isGenerating := false, progress := 0 }

/-- Phase 1 of Home.jsx handleCreateVideo (the generate_audio_story fetch
and its response handling): on a rejected fetch, a non-ok response, or an
unparsable ok body, the outer catch state is produced; on success the panel
images are stored, progress moves to 40 and the parsed payload is returned. -/
def submitPhase1 (s1 : HomeState) (a : FetchOutcome) :
    Except HomeState (HomeState × BodyData) :=
  match a with
  | .error e => .error (submitCatch s1 e)
  | .ok audioRes =>
    if audioRes.ok = false then
      let errBody : BodyData :=
        match (respJson audioRes).1 with
        | .ok b => b
        | .error _ => { detail := some "Audio generation failed" }
      .error (submitCatch s1
        (.err (jsOr errBody.detail (jsOr errBody.message "Audio generation failed"))))
    else
      match (respJson audioRes).1 with
      | .error e => .error (submitCatch s1 e)
      | .ok audioData =>
        let imgs := (audioData.image_urls).getD ((audioData.panel_images).getD [])
        .ok ({ s1 with panelImages := imgs, progress := 40 }, audioData)

/-- Phase 2 of Home.jsx handleCreateVideo (the generate_video fetch and its
response handling): on failure the outer catch state is produced; on success
the preview is shown when present, the job identifier is stored
(empty string coerced to null) and progress moves to 70. -/
def submitPhase2 (s2 : HomeState) (v : FetchOutcome) : Except HomeState HomeState :=
  match v with
  | .error e => .error (submitCatch s2 e)
  | .ok videoRes =>
    if videoRes.ok = false then
      let errBody : BodyData :=
        match (respJson videoRes).1 with
        | .ok b => b
        | .error _ => { detail := some "Video generation failed" }
      .error (submitCatch s2
        (.err (jsOr errBody.detail (jsOr errBody.message "Video generation failed"))))
    else
      match (respJson videoRes).1 with
      | .error e => .error (submitCatch s2 e)
      | .ok videoData =>
        let s3 :=
          match videoData.preview_url with
          | some p => if p = "" then s2 else { s2 with previewUrl := some p, showPreview := true }
          | none => s2
        .ok { s3 with jobId := jsNullable videoData.job_id, progress := 70 }

/-- Home.jsx handleCreateVideo: guard on a selected file, then phase 1
(generate_audio_story) strictly before phase 2 (generate_video); any failure
falls into the shared catch handler. The arguments a and v are the outcomes
the network would give to the first and second fetch; the returned list
records which requests were actually issued, in order. -/
def handleCreateVideo (s : HomeState) (a v : FetchOutcome) :
    HomeState × List Request :=
  match s.file with
  | none => ({ s with error := some "Please upload a PDF first" }, [])
  | some _ =>
    let s1 := { s with isGenerating := true, progress := 10, error := none }
    match submitPhase1 s1 a with
    | .error sAbort => (sAbort, [Request.audioStory])
    | .ok (s2, _audioData) =>
      match submitPhase2 s2 v with
      | .error sAbort => (sAbort, [Request.audioStory, Request.genVideo])
      | .ok s3 => (s3, [Request.audioStory, Request.genVideo])

/-- The component together with the polling timer: activePoll is the job
identifier the currently installed interval polls for, none when no
interval is installed. -/
structure SysState where
  home : HomeState
  activePoll : Option String
deriving DecidableEq, Repr

/-- The React effect keyed on jobId (Home.jsx lines 49-78), run after jobId
changes: the cleanup of the previous run clears the old interval, then the
effect returns early when jobId is falsy, otherwise installs an interval
for the current jobId. -/
def syncEffect (s : SysState) : SysState :=
  { s with activePoll := jsNullable s.home.jobId }

/-- One tick of the polling interval (the setInterval callback in Home.jsx):
when no interval is installed nothing happens; otherwise a video_status
request is issued for the polled job. A rejected fetch or an unparsable
body is swallowed by the catch; a non-ok response returns early; a
completed status stores the video URL, ends generating, sets progress 100
and clears the interval; an error status stores the message, ends
generating and clears the interval; any other status leaves everything
unchanged. -/
def tick (s : SysState) (resp : FetchOutcome) : SysState × List Request :=
  match s.activePoll with
  | none => (s, [])
  | some j =>
    let issued := [Request.videoStatus j]
    match resp with
    | .error _ => (s, issued)
    | .ok r =>
      if r.ok = false then (s, issued)
      else
        match (respJson r).1 with
        | .error _ => (s, issued)
        | .ok data =>
          let s1 :=
            if data.status = some "completed" then
              { home := { s.home with
                  videoUrl := data.video_url, isGenerating := false, progress := 100 }
                activePoll := none }
            else s
          let s2 :=
            if data.status = some "error" then
              { home := { s1.home with
                  error := some (jsOr data.message "Video generation failed")
                  isGenerating := false }
                activePoll := none }
            else s1
          (s2, issued)

/-- A sample Home state with a valid PDF loaded (the spec's 2 MB manga.pdf
scenario). -/
def mangaFile : FileData :=
  { name := "manga.pdf", type := "application/pdf", size := 2 * 1024 * 1024 }

/-- Home state right after mangaFile was selected and accepted. -/
def s0 : HomeState :=
  { file := some mangaFile
    mangaName := "manga"
    previewUrl := none
    videoUrl := none
    isGenerating := false
    showPreview := false
    progress := 0
    error := none
    jobId := none
    panelImages := [] }

/-- A selected file whose declared media type is not a PDF type. -/
def filePng : FileData :=
  { name := "page.png", type := "image/png", size := 10 }

/-- Poll response body reporting completion with a final video location. -/
def completedBody : BodyData :=
  { status := some "completed", video_url := some "/final/123.mp4" }

/-- A 200 poll response whose body parses to completedBody. -/
def completedResp : JSResponse :=
  { ok := true, status := 200, body := "status completed",
    jsonData := some completedBody, bodyUsed := false }

/-- The spec's phase-1 failure scenario: HTTP 500 whose JSON body carries
detail OCR failed. -/
def resp500 : JSResponse :=
  { ok := false, status := 500, body := "detail OCR failed",
    jsonData := some { detail := some "OCR failed" }, bodyUsed := false }

/-- A 500 response whose body is HTML, not JSON. -/
def nonJson500 : JSResponse :=
  { ok := false, status := 500, body := "<html>Internal Server Error</html>",
    jsonData := none, bodyUsed := false }

/-- The TypeError a second read of a consumed response body rejects with. -/
def bodyReuseTypeError : JSError :=
  JSError.typeError "Failed to execute text on Response: body stream already read"

/-- System state with an earlier job old-job still being polled. -/
def sysOld : SysState :=
  { home := { s0 with jobId := some "old-job", isGenerating := true, progress := 70 }
    activePoll := some "old-job" }

/-- A fetch oracle whose first attempt fails at the network level and whose
second attempt resolves. -/
def oracleW : Nat → FetchOutcome := fun n =>
  if n = 0 then .error (.typeError "down") else .ok completedResp

/-- submitCatch only touches error, isGenerating and progress. -/
lemma submitCatch_jobId (s : HomeState) (e : JSError) :
    (submitCatch s e).jobId = s.jobId := rfl

/-- Whatever the response outcome, a tick with an installed interval for j
issues exactly one video_status request for j. -/
lemma tick_issued (sys : SysState) (j : String) (resp : FetchOutcome)
    (hp : sys.activePoll = some j) :
    (tick sys resp).2 = [Request.videoStatus j] := by
  unfold tick
  rw [hp]
  cases resp with
  | error e => rfl
  | ok r =>
    dsimp only
    by_cases h : r.ok = false
    · simp [h]
    · simp only [h, if_false]
      rcases hj : (respJson r).1 with e | d
      · simp
      · simp

/-- Phase 1 of the submission fails: the fetch rejected at the network level
or the response carries a non-2xx status. -/
def phase1Failed (a : FetchOutcome) : Prop :=
  (∃ e, a = Except.error e) ∨ (∃ r, a = Except.ok r ∧ r.ok = false)

/-- Claim C1: every submission performs phase 1 (generate_audio_story)
before phase 2 (generate_video) — whenever any request is issued the first
one is the phase-1 request — and when phase 1 fails (transport rejection or
non-2xx response) the phase-2 request is never issued and the submission
leaves the job identifier untouched, so it produces none. -/
theorem submission_phase_order_and_failure (s : HomeState) (a v : FetchOutcome) :
    ((handleCreateVideo s a v).2 = [] ∨
      (handleCreateVideo s a v).2.head? = some Request.audioStory) ∧
    (phase1Failed a →
      Request.genVideo ∉ (handleCreateVideo s a v).2 ∧
      (handleCreateVideo s a v).1.jobId = s.jobId) := by
  constructor
  · cases hf : s.file with
    | none => simp [handleCreateVideo, hf]
    | some f =>
      unfold handleCreateVideo
      rw [hf]
      dsimp only
      split
      · simp
      · split <;> simp
  · intro hfail
    cases hf : s.file with
    | none => simp [handleCreateVideo, hf]
    | some f =>
      unfold handleCreateVideo
      rw [hf]
      dsimp only
      rcases hfail with ⟨e, rfl⟩ | ⟨r, rfl, hok⟩
      · simp [submitPhase1, submitCatch]
      · simp [submitPhase1, hok, submitCatch]

/-- Witness for C1 at a concrete input: phase 1 rejects with a network
error, so no generate_video request is issued and the job identifier stays
as it was. -/
theorem submission_phase_order_and_failure_witness :
    Request.genVideo ∉
      (handleCreateVideo s0 (.error (.typeError "Failed to fetch")) (.ok completedResp)).2 ∧
    (handleCreateVideo s0 (.error (.typeError "Failed to fetch")) (.ok completedResp)).1.jobId
      = s0.jobId :=
  (submission_phase_order_and_failure s0 (.error (.typeError "Failed to fetch"))
    (.ok completedResp)).2 (Or.inl ⟨JSError.typeError "Failed to fetch", rfl⟩)

/-- Follows the spec's words, for comparison with the source's validateFile:
a declared media type is the PDF media type exactly when it equals
application/pdf, the type the file input's accept attribute in Home.jsx
names. -/
def specPdfMediaType (t : String) : Bool :=
  t = "application/pdf"

/-- Claim C2 counterexample: a file whose declared media type is
fake/not-a-pdf — not a PDF media type — and whose size is 10 bytes is
accepted by validateFile, because the source only tests that the type
contains pdf as a substring; so validation does not accept exactly the
PDF-typed files. -/
theorem validateFile_accepts_non_pdf_type :
    (validateFile s0 (some { name := "weird.bin", type := "fake/not-a-pdf", size := 10 })).1
      = true ∧
    specPdfMediaType "fake/not-a-pdf" = false :=
  ⟨rfl, rfl⟩

/-- validateFile accepts exactly the pdf-substring-typed files of size at
most 50 MiB. Shared characterisation used by several proofs. -/
lemma validateFile_true_iff (s : HomeState) (f : FileData) :
    (validateFile s (some f)).1 = true ↔
      (strIncludes f.type "pdf" = true ∧ f.size ≤ 50 * 1024 * 1024) := by
  unfold validateFile
  by_cases hin : strIncludes f.type "pdf" = false
  · simp [hin]
  · rw [Bool.not_eq_false] at hin
    by_cases hsz : f.size > 50 * 1024 * 1024
    · simp [hin, hsz]
    · simp [hin, hsz]
      omega

/-- Claim C2 (amended): validation accepts exactly the files whose declared
media type contains pdf as a substring (case-sensitive) and whose size is at
most 50 * 1024 * 1024 bytes; every rejected file leaves an error message
set, and selecting a file performs no network request. -/
theorem validateFile_characterisation (s : HomeState) (f : FileData) :
    ((validateFile s (some f)).1 = true ↔
      (strIncludes f.type "pdf" = true ∧ f.size ≤ 50 * 1024 * 1024)) ∧
    ((validateFile s (some f)).1 = false →
      ∃ m, (validateFile s (some f)).2.error = some m) ∧
    (handleFile s (some f)).2 = [] := by
  refine ⟨validateFile_true_iff s f, ?_, ?_⟩
  · unfold validateFile
    by_cases hin : strIncludes f.type "pdf" = false
    · simp [hin]
    · rw [Bool.not_eq_false] at hin
      by_cases hsz : f.size > 50 * 1024 * 1024
      · simp [hin, hsz]
      · simp [hin, hsz]
  · unfold handleFile
    dsimp only
    split <;> rfl

/-- Witness for C2 (amended) at a concrete input: the PNG file is rejected
and an error message is set. -/
theorem validateFile_characterisation_witness :
    (validateFile s0 (some filePng)).1 = false ∧
    ∃ m, (validateFile s0 (some filePng)).2.error = some m :=
  ⟨rfl, (validateFile_characterisation s0 filePng).2.1 rfl⟩

/-- Claim C10: when a file is already loaded and a newly selected file fails
validation (type without pdf, or size over the limit), handleFile changes
only the error message: file, manga name, preview URL, video URL, job
identifier, panel images, progress, and the remaining state all keep their
prior values, while an error message is set. -/
theorem handleFile_invalid_frame (s : HomeState) (g f : FileData)
    (hload : s.file = some g)
    (hgood : strIncludes g.type "pdf" = true ∧ g.size ≤ 50 * 1024 * 1024)
    (hbad : ¬(strIncludes f.type "pdf" = true ∧ f.size ≤ 50 * 1024 * 1024)) :
    (handleFile s (some f)).1.file = s.file ∧
    (handleFile s (some f)).1.mangaName = s.mangaName ∧
    (handleFile s (some f)).1.previewUrl = s.previewUrl ∧
    (handleFile s (some f)).1.videoUrl = s.videoUrl ∧
    (handleFile s (some f)).1.jobId = s.jobId ∧
    (handleFile s (some f)).1.panelImages = s.panelImages ∧
    (handleFile s (some f)).1.progress = s.progress ∧
    (handleFile s (some f)).1.showPreview = s.showPreview ∧
    (handleFile s (some f)).1.isGenerating = s.isGenerating ∧
    ∃ m, (handleFile s (some f)).1.error = some m := by
  have hrej : (validateFile s (some f)).1 = false := by
    rcases Bool.eq_false_or_eq_true (validateFile s (some f)).1 with h | h
    · exact absurd ((validateFile_true_iff s f).mp h) hbad
    · exact h
  unfold handleFile
  dsimp only
  rw [hrej]
  dsimp only
  unfold validateFile
  by_cases hin : strIncludes f.type "pdf" = false
  · simp [hin]
  · rw [Bool.not_eq_false] at hin
    by_cases hsz : f.size > 50 * 1024 * 1024
    · simp [hin, hsz]
    · exact absurd ⟨hin, by omega⟩ hbad

/-- Witness for C10 at a concrete input: with manga.pdf loaded, selecting
the PNG file leaves every field but the error message unchanged. -/
theorem handleFile_invalid_frame_witness :
    (handleFile s0 (some filePng)).1.file = s0.file ∧
    (handleFile s0 (some filePng)).1.mangaName = s0.mangaName ∧
    (handleFile s0 (some filePng)).1.previewUrl = s0.previewUrl ∧
    (handleFile s0 (some filePng)).1.videoUrl = s0.videoUrl ∧
    (handleFile s0 (some filePng)).1.jobId = s0.jobId ∧
    (handleFile s0 (some filePng)).1.panelImages = s0.panelImages ∧
    (handleFile s0 (some filePng)).1.progress = s0.progress ∧
    (handleFile s0 (some filePng)).1.showPreview = s0.showPreview ∧
    (handleFile s0 (some filePng)).1.isGenerating = s0.isGenerating ∧
    ∃ m, (handleFile s0 (some filePng)).1.error = some m :=
  handleFile_invalid_frame s0 mangaFile filePng rfl ⟨rfl, by decide⟩
    (by intro h; exact absurd h.1 (by decide))

/-- Claim C3 counterexample: with job old-job in the Polling state, a new
submission begins (handleCreateVideo runs) and fails in phase 1; the job
identifier is never changed by it, so the effect keyed on jobId never
re-runs and the old interval stays installed: the very next tick issues a
status request for the old job identifier. -/
theorem new_submission_keeps_old_poll :
    (handleCreateVideo sysOld.home (.error (.typeError "Failed to fetch"))
        (.error (.typeError "Failed to fetch"))).1.jobId = some "old-job" ∧
    (tick { home := (handleCreateVideo sysOld.home (.error (.typeError "Failed to fetch"))
              (.error (.typeError "Failed to fetch"))).1
            activePoll := sysOld.activePoll }
        (.error (.typeError "net"))).2 = [Request.videoStatus "old-job"] :=
  ⟨rfl, rfl⟩

/-- Claim C3 (amended): starting a new submission does not by itself cancel
the previous polling loop; the old interval is cleared only when the
submission's phase 2 stores a (truthy) job identifier and the effect keyed
on jobId re-runs. Once the effect has re-run for the new identifier, the
installed interval is the new one and every subsequent status request names
the new job identifier only. -/
theorem effect_rerun_polls_new_job_only (home : HomeState) (oldPoll : Option String)
    (j : String) (resp : FetchOutcome)
    (hj : home.jobId = some j) (hne : j ≠ "") :
    (syncEffect { home := home, activePoll := oldPoll }).activePoll = some j ∧
    (tick (syncEffect { home := home, activePoll := oldPoll }) resp).2
      = [Request.videoStatus j] := by
  have hap : (syncEffect { home := home, activePoll := oldPoll }).activePoll = some j := by
    simp [syncEffect, hj, jsNullable, hne]
  exact ⟨hap, tick_issued _ j resp hap⟩

/-- Witness for C3 (amended): after a submission stored job identifier
new-job, the re-run effect installs the interval for new-job and the next
tick polls new-job. -/
theorem effect_rerun_polls_new_job_only_witness :
    (syncEffect { home := { s0 with jobId := some "new-job" }
                  activePoll := some "old-job" }).activePoll = some "new-job" ∧
    (tick (syncEffect { home := { s0 with jobId := some "new-job" }
                        activePoll := some "old-job" })
        (.error (.typeError "net"))).2 = [Request.videoStatus "new-job"] :=
  effect_rerun_polls_new_job_only { s0 with jobId := some "new-job" }
    (some "old-job") "new-job" (.error (.typeError "net")) rfl (by decide)

/-- Claim C4: when a poll tick receives an ok response whose body reports
status completed, the tick stores the response's video_url as the final
video location, ends the generating state with progress 100, clears the
interval, and afterwards no further status request is issued and no state
changes — in particular a duplicate completed response re-triggers
nothing. -/
theorem poll_completed_stops (sys : SysState) (j : String) (r : JSResponse) (d : BodyData)
    (hp : sys.activePoll = some j) (hok : r.ok = true) (hbu : r.bodyUsed = false)
    (hjson : r.jsonData = some d) (hst : d.status = some "completed") :
    (tick sys (.ok r)).2 = [Request.videoStatus j] ∧
    (tick sys (.ok r)).1.home.videoUrl = d.video_url ∧
    (tick sys (.ok r)).1.home.isGenerating = false ∧
    (tick sys (.ok r)).1.home.progress = 100 ∧
    (tick sys (.ok r)).1.activePoll = none ∧
    (∀ resp2, tick (tick sys (.ok r)).1 resp2 = ((tick sys (.ok r)).1, [])) := by
  have hout : tick sys (.ok r) =
      ({ home := { sys.home with
            videoUrl := d.video_url, isGenerating := false, progress := 100 }
         activePoll := none }, [Request.videoStatus j]) := by
    unfold tick
    rw [hp]
    dsimp only
    rw [hok]
    simp only [Bool.true_eq_false, if_false]
    rw [respJson, hbu]
    simp only [Bool.false_eq_true, if_false, hjson]
    rw [hst]
    simp
  refine ⟨by rw [hout], by rw [hout], by rw [hout], by rw [hout], by rw [hout], ?_⟩
  intro resp2
  rw [hout]
  unfold tick
  rfl

/-- Witness for C4 at a concrete input: a completed response for job abc
captures the final URL and stops the poller. -/
theorem poll_completed_stops_witness :
    (tick { home := s0, activePoll := some "abc" } (.ok completedResp)).2
      = [Request.videoStatus "abc"] ∧
    (tick { home := s0, activePoll := some "abc" } (.ok completedResp)).1.home.videoUrl
      = completedBody.video_url ∧
    (tick { home := s0, activePoll := some "abc" } (.ok completedResp)).1.home.isGenerating
      = false ∧
    (tick { home := s0, activePoll := some "abc" } (.ok completedResp)).1.home.progress
      = 100 ∧
    (tick { home := s0, activePoll := some "abc" } (.ok completedResp)).1.activePoll
      = none ∧
    (∀ resp2, tick (tick { home := s0, activePoll := some "abc" } (.ok completedResp)).1 resp2
      = ((tick { home := s0, activePoll := some "abc" } (.ok completedResp)).1, [])) :=
  poll_completed_stops { home := s0, activePoll := some "abc" } "abc"
    completedResp completedBody rfl rfl rfl rfl rfl

/-- Claim C5: a poll tick whose status request rejects at the transport
level or resolves with a non-2xx status leaves the whole system state
unchanged — no error surfaced, captured URL and message untouched, the
interval still installed — and the next tick still issues a status
request. -/
theorem poll_transient_failure_ignored (sys : SysState) (j : String) (resp : FetchOutcome)
    (hp : sys.activePoll = some j)
    (hfail : (∃ e, resp = Except.error e) ∨ (∃ r, resp = Except.ok r ∧ r.ok = false)) :
    tick sys resp = (sys, [Request.videoStatus j]) ∧
    (∀ resp2, (tick ((tick sys resp).1) resp2).2 = [Request.videoStatus j]) := by
  have hmain : tick sys resp = (sys, [Request.videoStatus j]) := by
    rcases hfail with ⟨e, rfl⟩ | ⟨r, rfl, hok⟩
    · unfold tick
      rw [hp]
    · unfold tick
      rw [hp]
      dsimp only
      rw [hok]
      simp
  refine ⟨hmain, ?_⟩
  intro resp2
  rw [hmain]
  exact tick_issued sys j resp2 hp

/-- Witness for C5 at a concrete input: a transport rejection on a tick for
job abc changes nothing and the next tick still polls. -/
theorem poll_transient_failure_ignored_witness :
    tick { home := s0, activePoll := some "abc" } (.error (.typeError "Failed to fetch"))
      = ({ home := s0, activePoll := some "abc" }, [Request.videoStatus "abc"]) ∧
    (∀ resp2,
      (tick ((tick { home := s0, activePoll := some "abc" }
          (.error (.typeError "Failed to fetch"))).1) resp2).2
        = [Request.videoStatus "abc"]) :=
  poll_transient_failure_ignored { home := s0, activePoll := some "abc" } "abc"
    (.error (.typeError "Failed to fetch"))
    rfl (Or.inl ⟨JSError.typeError "Failed to fetch", rfl⟩)

/-- Claim C7: when phase 1 answers HTTP 500 with a JSON body whose detail
field is OCR failed, the submission aborts with the user-visible error
message exactly OCR failed, the job identifier remains unset, and the
poller never starts: the effect keyed on jobId installs no interval and a
tick issues no request and changes nothing. -/
theorem phase1_500_ocr_failed (s : HomeState) (f : FileData) (v : FetchOutcome)
    (hf : s.file = some f) (hj : s.jobId = none) :
    (handleCreateVideo s (.ok resp500) v).1.error = some "OCR failed" ∧
    (handleCreateVideo s (.ok resp500) v).1.jobId = none ∧
    (handleCreateVideo s (.ok resp500) v).1.isGenerating = false ∧
    (handleCreateVideo s (.ok resp500) v).2 = [Request.audioStory] ∧
    (syncEffect { home := (handleCreateVideo s (.ok resp500) v).1
                  activePoll := none }).activePoll = none ∧
    (∀ resp, tick (syncEffect { home := (handleCreateVideo s (.ok resp500) v).1
                                activePoll := none }) resp
      = (syncEffect { home := (handleCreateVideo s (.ok resp500) v).1
                      activePoll := none }, [])) := by
  have h1 : ∀ s1 : HomeState, submitPhase1 s1 (.ok resp500)
      = .error (submitCatch s1 (.err "OCR failed")) := fun s1 => rfl
  have hmain : handleCreateVideo s (.ok resp500) v
      = (submitCatch { s with isGenerating := true, progress := 10, error := none }
          (.err "OCR failed"), [Request.audioStory]) := by
    unfold handleCreateVideo
    cases hfs : s.file with
    | none => rw [hfs] at hf; cases hf
    | some g =>
      dsimp only
      rw [h1]
  have heffect : (syncEffect { home := (handleCreateVideo s (.ok resp500) v).1,
                               activePoll := none }).activePoll = none := by
    rw [hmain]
    unfold syncEffect
    dsimp only
    have hjid : (submitCatch { s with isGenerating := true, progress := 10, error := none }
        (JSError.err "OCR failed")).jobId = none := hj
    rw [hjid]
    rfl
  refine ⟨by rw [hmain]; rfl, by rw [hmain]; exact hj, by rw [hmain]; rfl,
    by rw [hmain], heffect, ?_⟩
  intro resp
  unfold tick
  rw [heffect]

/-- Witness for C7 at a concrete input: the loaded manga.pdf state with the
500 OCR-failed phase-1 response. -/
theorem phase1_500_ocr_failed_witness :
    (handleCreateVideo s0 (.ok resp500) (.ok completedResp)).1.error = some "OCR failed" ∧
    (handleCreateVideo s0 (.ok resp500) (.ok completedResp)).1.jobId = none ∧
    (handleCreateVideo s0 (.ok resp500) (.ok completedResp)).1.isGenerating = false ∧
    (handleCreateVideo s0 (.ok resp500) (.ok completedResp)).2 = [Request.audioStory] ∧
    (syncEffect { home := (handleCreateVideo s0 (.ok resp500) (.ok completedResp)).1
                  activePoll := none }).activePoll = none ∧
    (∀ resp, tick (syncEffect { home := (handleCreateVideo s0 (.ok resp500)
                                  (.ok completedResp)).1
                                activePoll := none }) resp
      = (syncEffect { home := (handleCreateVideo s0 (.ok resp500) (.ok completedResp)).1
                      activePoll := none }, [])) :=
  phase1_500_ocr_failed s0 mangaFile (.ok completedResp) rfl rfl

/-- Claim C6 counterexample: the submission path in Home.jsx calls fetch
directly, so when phase 1 rejects at the network level the submission
issues exactly one request and immediately surfaces the transport error to
the user — the failed call is not retried before the error is
propagated. -/
theorem submission_transport_error_not_retried :
    (handleCreateVideo s0 (.error (.typeError "Failed to fetch")) (.ok completedResp)).2
      = [Request.audioStory] ∧
    (handleCreateVideo s0 (.error (.typeError "Failed to fetch")) (.ok completedResp)).1.error
      = some "Failed to fetch" :=
  ⟨rfl, rfl⟩

/-- Claim C6 (amended): the api.js wrapper fetchWithRetry (default
retries = 1) retries a network-level rejection exactly once — two attempts
total, the second attempt's outcome propagated — and never retries a
resolved response whatever its status; the submission flow in Home.jsx,
however, calls fetch directly, so its calls make a single attempt and a
transport error is propagated to the user unretried. -/
theorem fetch_retry_policy (oracle : Nat → FetchOutcome) (r : JSResponse) (e : JSError)
    (s : HomeState) (f : FileData) (m : String) (v : FetchOutcome)
    (hs : s.file = some f) (hm : m ≠ "") :
    (oracle 0 = .ok r → fetchWithRetry oracle 0 1 = (.ok r, 1)) ∧
    (oracle 0 = .error e → fetchWithRetry oracle 0 1 = (oracle 1, 2)) ∧
    ((handleCreateVideo s (.error (.typeError m)) v).2 = [Request.audioStory] ∧
      (handleCreateVideo s (.error (.typeError m)) v).1.error = some m) := by
  refine ⟨?_, ?_, ?_⟩
  · intro h
    unfold fetchWithRetry
    rw [h]
  · intro h
    unfold fetchWithRetry
    rw [h]
    dsimp only
    cases h2 : oracle 1 with
    | ok r2 => unfold fetchWithRetry; rw [h2]
    | error e2 => unfold fetchWithRetry; rw [h2]
  · have hmain : handleCreateVideo s (.error (.typeError m)) v
        = (submitCatch { s with isGenerating := true, progress := 10, error := none }
            (.typeError m), [Request.audioStory]) := by
      unfold handleCreateVideo
      cases hfs : s.file with
      | none => rw [hfs] at hs; cases hs
      | some g => rfl
    refine ⟨by rw [hmain], ?_⟩
    rw [hmain]
    show some (catchMsg (.typeError m)) = some m
    unfold catchMsg JSError.message
    rw [if_neg hm]

/-- Witness for C6 (amended) at a concrete oracle whose first attempt
rejects and second resolves: two attempts are made and the second outcome
returned; and the concrete Home submission surfaces the transport error
after a single request. -/
theorem fetch_retry_policy_witness :
    fetchWithRetry oracleW 0 1 = (oracleW 1, 2) ∧
    (handleCreateVideo s0 (.error (.typeError "down")) (.ok completedResp)).2
      = [Request.audioStory] ∧
    (handleCreateVideo s0 (.error (.typeError "down")) (.ok completedResp)).1.error
      = some "down" :=
  have h := fetch_retry_policy oracleW completedResp (JSError.typeError "down")
    s0 mangaFile "down" (.ok completedResp) rfl (by decide)
  ⟨h.2.1 rfl, h.2.2⟩

/-- Claim C8: on a non-2xx response whose body is not valid JSON,
parseJSONResponse is meant to raise a descriptive error carrying the status
code and the raw body text, but the body stream was already consumed by the
failed json() read, so the text() call inside the catch block itself
rejects: the error actually raised is the body-reuse TypeError, which
contains neither the status code nor the body text. -/
theorem parseJSONResponse_nonjson_raises_reuse_error :
    (parseJSONResponse nonJson500).1 = .error bodyReuseTypeError ∧
    strIncludes bodyReuseTypeError.message "500" = false ∧
    strIncludes bodyReuseTypeError.message nonJson500.body = false :=
  ⟨rfl, rfl, rfl⟩

/-- Claim C9 counterexample: with the environment base URL absent, the
phase-1 URL Home.jsx fetches is undefined/api/v1/generate_audio_story — the
literal text undefined interpolated by the template string — and not a URL
on the local default host that api.js would fall back to. -/
theorem home_urls_no_fallback :
    homeAudioStoryUrl none = "undefined/api/v1/generate_audio_story" ∧
    API_URL none = "http://localhost:8000" ∧
    strIncludes (homeAudioStoryUrl none) "localhost" = false :=
  ⟨rfl, rfl, rfl⟩

/-- Claim C9 (amended): the api.js API_URL falls back to the local default
host http://localhost:8000 when the environment base URL is absent, but
Home.jsx reads the variable with no fallback, so the three URLs its network
calls use interpolate the literal text undefined when the configuration is
absent; when a nonempty base URL is configured, both moduli use it as the
prefix of every endpoint path. -/
theorem base_url_configuration (env : Option String) (j : String) :
    (env = none →
      API_URL env = "http://localhost:8000" ∧
      homeAudioStoryUrl env = "undefined/api/v1/generate_audio_story" ∧
      homeGenerateVideoUrl env = "undefined/api/v1/generate_video" ∧
      homeVideoStatusUrl env j = "undefined/api/v1/video_status/" ++ j) ∧
    (∀ b, env = some b → b ≠ "" →
      API_URL env = b ∧
      homeAudioStoryUrl env = b ++ "/api/v1/generate_audio_story" ∧
      homeGenerateVideoUrl env = b ++ "/api/v1/generate_video" ∧
      homeVideoStatusUrl env j = b ++ "/api/v1/video_status/" ++ j) := by
  constructor
  · rintro rfl
    exact ⟨rfl, rfl, rfl, rfl⟩
  · rintro b rfl hb
    refine ⟨?_, rfl, rfl, rfl⟩
    simp [API_URL, jsOr, hb]

/-- Witness for C9 (amended) at both concrete configurations: absent and a
nonempty base URL. -/
theorem base_url_configuration_witness :
    (API_URL none = "http://localhost:8000" ∧
      homeAudioStoryUrl none = "undefined/api/v1/generate_audio_story" ∧
      homeGenerateVideoUrl none = "undefined/api/v1/generate_video" ∧
      homeVideoStatusUrl none "abc" = "undefined/api/v1/video_status/" ++ "abc") ∧
    (API_URL (some "http://x") = "http://x" ∧
      homeAudioStoryUrl (some "http://x") = "http://x" ++ "/api/v1/generate_audio_story" ∧
      homeGenerateVideoUrl (some "http://x") = "http://x" ++ "/api/v1/generate_video" ∧
      homeVideoStatusUrl (some "http://x") "abc" = "http://x" ++ "/api/v1/video_status/" ++ "abc") :=
  ⟨(base_url_configuration none "abc").1 rfl,
    (base_url_configuration (some "http://x") "abc").2 "http://x" rfl (by decide)⟩
